import Mathlib

/-!
Verification development for the financial-analysis engine in
`pipeline/financial_analyzer.py`: historical ROIC extraction, WACC component
extraction, WACC calculation with sensitivity scenarios, ROIC-WACC spread
classification, and the per-ticker on-disk cache layer.

Modelling conventions:
* Monetary quantities and rates (Python floats) are modelled as exact
  rationals `ℚ`.
* Timestamps (`datetime`) are modelled as integer seconds on a linear clock
  whose zero is 2000-01-01 (the fallback date used by `load_from_cache` for a
  missing `cache_date` key); `timedelta.days` is floored division by 86400.
* The filing provider (`edgar.entity.core.Company`, `get_filings(...).latest`,
  `latest_tenk`, `financials`), which is not part of the analyzed sources, is
  modelled from the spec (sections 4.2, 4.3 and 6) as explicit input data: a
  company is either absent (the lookup raises) or a list of annual filings,
  most recent first, each carrying optional statements.
* Each call to `extract_xbrl_value(statement, concepts)` in the source is
  modelled as an optional field of the statement record, named after the
  concept list of that call site; `none` means no candidate concept produced
  a numeric value.
* Exceptions become `Except` values, the mutable per-ticker cache file becomes
  explicit state passing of a `CacheFile` value, and `datetime.now()` becomes
  an explicit `now : Int` argument (one per exported call, since nothing in
  the code depends on intra-call clock drift).
-/

namespace FinancialAnalyzer

/-- Default risk-free rate used by WACC extraction (`DEFAULT_RISK_FREE_RATE = 0.040`). -/
def DEFAULT_RISK_FREE_RATE : ℚ := 4/100

/-- Default market risk premium (`DEFAULT_MARKET_RISK_PREMIUM = 0.055`). -/
def DEFAULT_MARKET_RISK_PREMIUM : ℚ := 55/1000

/-- Default beta (`DEFAULT_BETA = 1.0`). -/
def DEFAULT_BETA : ℚ := 1

/-- Error taxonomy: `InsufficientDataError` is a subclass of
`FinancialDataError` in the source; we model the two distinguishable
exception classes as two constructors. -/
inductive FinError where
  | insufficientData (msg : String)
  | financialData (msg : String)
deriving DecidableEq

/-- Data class `ROICData`. -/
structure ROICData where
  years : List Int
  roic_values : List ℚ
  nopat_values : List ℚ
  invested_capital_values : List ℚ
deriving DecidableEq

/-- Data class `WACCComponents`. -/
structure WACCComponents where
  cost_of_equity : ℚ
  cost_of_debt : ℚ
  tax_rate : ℚ
  debt_ratio : ℚ
  equity_ratio : ℚ
  total_debt : ℚ
  total_equity : ℚ
  risk_free_rate : ℚ
  beta : ℚ
  market_risk_premium : ℚ
deriving DecidableEq

/-- The `scenarios` dictionary of `WACCResult`: key `base` is always present,
`pessimistic` and `optimistic` only when sensitivity was requested. -/
structure Scenarios where
  base : ℚ
  pessimistic : Option ℚ
  optimistic : Option ℚ
deriving DecidableEq

/-- Data class `WACCResult`. -/
structure WACCResult where
  baseline_wacc : ℚ
  scenarios : Scenarios
  components_breakdown : WACCComponents
deriving DecidableEq

/-- Data class `SpreadResult`. -/
structure SpreadResult where
  current_spread : ℚ
  spread_history : List ℚ
  years : List Int
  spread_trend : String
  durability_assessment : String
  roic_data : ROICData
  wacc_result : WACCResult
deriving DecidableEq

/-- One per-ticker cache record (the JSON object persisted by
`save_to_cache`): any subset of the three sub-result keys, plus the
`cache_date` and `ticker` stamps, each possibly missing. -/
structure CacheRecord where
  roic_history : Option ROICData
  wacc_components : Option WACCComponents
  spread_result : Option SpreadResult
  cache_date : Option Int
  ticker : Option String
deriving DecidableEq

/-- The empty JSON object `{}` used when no existing cache record is loaded. -/
def emptyRecord : CacheRecord :=
  { roic_history := none, wacc_components := none, spread_result := none,
    cache_date := none, ticker := none }

/-- State of the on-disk cache file for one ticker: absent, present but
corrupted or unreadable (any failure inside `json.load`/`fromisoformat`),
or a well-formed record. -/
inductive CacheFile where
  | missing
  | unreadable
  | valid (record : CacheRecord)
deriving DecidableEq

/-- Seconds per day; `timedelta.days` is the floored quotient by this. -/
def secondsPerDay : Int := 86400

/-- Timestamp of `2000-01-01`, the `fromisoformat` fallback applied by
`load_from_cache` when the `cache_date` key is absent; it is the zero of our
integer clock. -/
def default_cache_date : Int := 0

/-- Embedding of `load_from_cache` (lines 125-142): return the record only
when it parses and its `cache_date` is less than 90 (floored) days old;
missing, unreadable and stale files all yield `none`. -/
def load_from_cache (file : CacheFile) (now : Int) : Option CacheRecord :=
  match file with
  | .missing => none
  | .unreadable => none
  | .valid data =>
    let cache_date := data.cache_date.getD default_cache_date
    let days_old := Int.fdiv (now - cache_date) secondsPerDay
    if days_old < 90 then some data else none

/-- Embedding of `save_to_cache` (lines 145-158): stamp `cache_date = now`
and `ticker`, then persist the whole record (the successful-write case; a
failed write is logged and swallowed in the source and not modelled). -/
def save_to_cache (ticker : String) (data : CacheRecord) (now : Int) : CacheFile :=
  CacheFile.valid { data with cache_date := some now, ticker := some ticker }

/-- Income-statement fields read by the engine. Each field is the result of
one `extract_xbrl_value(income_stmt, concepts)` call site, named after its
concept list; `none` means no candidate concept held a numeric value. -/
structure IncomeStmt where
  /-- Concepts `OperatingIncomeLoss` with fallback to the pre-tax
  continuing-operations income concepts (lines 308-313). -/
  operating_income : Option ℚ
  /-- Concept `IncomeTaxExpenseBenefit` (lines 316-319 and 552-555). -/
  income_tax_expense : Option ℚ
  /-- Concept `IncomeLossFromContinuingOperationsBeforeIncomeTaxes...`
  (lines 321-324 and 557-560). -/
  income_before_tax : Option ℚ
  /-- Concepts `InterestExpense`, `InterestExpenseDebt` (lines 523-528). -/
  interest_expense : Option ℚ
deriving DecidableEq

/-- Balance-sheet fields read by the engine, one per
`extract_xbrl_value(balance_sheet, concepts)` call site. The two short-term
debt fields are distinct because the ROIC path tries `ShortTermBorrowings`
before `DebtCurrent` (lines 359-364) while the WACC path tries them in the
opposite order (lines 506-511), which can resolve differently. -/
structure BalanceSheet where
  /-- Concept `Assets` (lines 342-345). -/
  assets : Option ℚ
  /-- Concepts `CashAndCashEquivalentsAtCarryingValue`, `Cash` (lines 347-352). -/
  cash_and_equivalents : Option ℚ
  /-- Concept `LiabilitiesCurrent` (lines 354-357). -/
  liabilities_current : Option ℚ
  /-- Concepts `ShortTermBorrowings` then `DebtCurrent` (lines 359-364). -/
  short_term_borrowings_first : Option ℚ
  /-- Concepts `DebtCurrent` then `ShortTermBorrowings` (lines 506-511). -/
  debt_current_first : Option ℚ
  /-- Concepts `LongTermDebt`, `LongTermDebtNoncurrent` (lines 513-518). -/
  long_term_debt : Option ℚ
  /-- Concepts `StockholdersEquity` and the noncontrolling-interest variant
  (lines 539-544). -/
  stockholders_equity : Option ℚ
deriving DecidableEq

/-- Modelled from the spec: the `financials` object attached to a 10-K filing
by the filing provider (spec section 6); either statement may be absent. -/
structure Financials where
  income_statement : Option IncomeStmt
  balance_sheet : Option BalanceSheet
deriving DecidableEq

/-- Modelled from the spec: one annual filing handle from the filing
provider, carrying its filing year and optional financials. -/
structure Filing where
  filing_year : Int
  financials : Option Financials
deriving DecidableEq

/-- Modelled from the spec (section 6): the data the filing provider exposes
for one company. `tenk_filings` is `company.get_filings(form='10-K')`,
most recent first, of which `.latest(n)` takes the first `n`; `latest_tenk`
is `company.latest_tenk`. A failed company lookup (for example an unknown
ticker) is modelled by passing `none` in place of a `CompanyData`. -/
structure CompanyData where
  tenk_filings : List Filing
  latest_tenk : Option Filing
deriving DecidableEq

/-- Effective-tax-rate snippet, inlined identically at lines 326-332 (ROIC
path) and 562-567 (WACC path): default 0.21, replaced by
`|tax_expense / pretax_income|` only when both figures are present and
Python-truthy (in particular a tax expense of exactly 0 keeps the default,
since `0.0` is falsy) and the quotient passes the `[0, 0.5]` sanity bound
(an out-of-range quotient falls back to the default). -/
def effective_tax_rate (income_tax_expense income_before_tax : Option ℚ) : ℚ :=
  match income_tax_expense, income_before_tax with
  | some te, some pt =>
    if te ≠ 0 ∧ pt ≠ 0 then
      let tax_rate := |te / pt|
      if tax_rate < 0 ∨ tax_rate > 1/2 then 21/100 else tax_rate
    else 21/100
  | _, _ => 21/100

/-- One row of extracted ROIC data, the tuple
`(year, roic, nopat, invested_capital)` zipped and sorted at lines 410-411. -/
structure RoicRow where
  year : Int
  roic : ℚ
  nopat : ℚ
  invested_capital : ℚ
deriving DecidableEq

/-- Lexicographic tuple order used by Python `sorted` on
`(year, roic, nopat, invested_capital)` tuples. -/
def rowLE (a b : RoicRow) : Bool :=
  decide (a.year < b.year ∨ (a.year = b.year ∧
    (a.roic < b.roic ∨ (a.roic = b.roic ∧
      (a.nopat < b.nopat ∨ (a.nopat = b.nopat ∧
        a.invested_capital ≤ b.invested_capital))))))

/-- Body of the per-filing loop of `extract_roic_history` (lines 289-401):
skip the filing (`continue`) when financials, a statement, operating income
or total assets are missing, or when the derived invested capital is not
positive; otherwise produce the row recorded for that filing-year. Cash,
current liabilities and short-term debt default to 0 when absent. -/
def process_filing (filing : Filing) : Option RoicRow :=
  match filing.financials with
  | none => none
  | some financials =>
    match financials.income_statement, financials.balance_sheet with
    | some income_stmt, some balance_sheet =>
      let tax_rate := effective_tax_rate income_stmt.income_tax_expense
        income_stmt.income_before_tax
      match income_stmt.operating_income with
      | none => none
      | some operating_income =>
        let nopat := operating_income * (1 - tax_rate)
        let cash_and_equivalents := balance_sheet.cash_and_equivalents.getD 0
        let current_liabilities := balance_sheet.liabilities_current.getD 0
        let short_term_debt := balance_sheet.short_term_borrowings_first.getD 0
        let non_interest_liabilities := max 0 (current_liabilities - short_term_debt)
        match balance_sheet.assets with
        | none => none
        | some total_assets =>
          let invested_capital := total_assets - cash_and_equivalents -
            non_interest_liabilities
          if invested_capital ≤ 0 then none
          else some { year := filing.filing_year,
                      roic := nopat / invested_capital,
                      nopat := nopat,
                      invested_capital := invested_capital }
    | _, _ => none

/-- Try-block body of `extract_roic_history` (lines 264-430), run on a cache
miss: the most recent `years` 10-K filings are processed one by one, a
minimum of 3 valid rows is enforced (`InsufficientDataError` otherwise, also
for the zero-filings case), the rows are tuple-sorted ascending. A failed
company lookup (`company = none`) is the `except Exception` path re-raising
as a plain `FinancialDataError`. -/
def roic_from_filings (company : Option CompanyData) (ticker : String)
    (years : Nat) : Except FinError ROICData :=
  match company with
  | none => .error (.financialData ("Failed to extract ROIC history for " ++ ticker))
  | some co =>
    let filings := co.tenk_filings.take years
    if filings.length = 0 then
      .error (.insufficientData ("No 10-K filings found for " ++ ticker))
    else
      let rows := filings.filterMap process_filing
      if rows.length < 3 then
        .error (.insufficientData ("Insufficient ROIC data for " ++ ticker))
      else
        let sorted_data := rows.mergeSort rowLE
        .ok { years := sorted_data.map RoicRow.year,
              roic_values := sorted_data.map RoicRow.roic,
              nopat_values := sorted_data.map RoicRow.nopat,
              invested_capital_values := sorted_data.map RoicRow.invested_capital }

/-- Embedding of `extract_roic_history` (lines 231-430): a fresh cached
`roic_history` entry is rebuilt and returned verbatim (lines 253-262,
regardless of the `years` argument of the current call); otherwise the
filings are processed by `roic_from_filings` and, on success, the result is
merged into the loaded cache record (an empty record when none was loaded,
lines 420-423) and saved. -/
def extract_roic_history (company : Option CompanyData) (file : CacheFile)
    (now : Int) (ticker : String) (years : Nat) :
    Except FinError ROICData × CacheFile :=
  let cache := load_from_cache file now
  match cache.bind CacheRecord.roic_history with
  | some cached_roic =>
    (.ok { years := cached_roic.years,
           roic_values := cached_roic.roic_values,
           nopat_values := cached_roic.nopat_values,
           invested_capital_values := cached_roic.invested_capital_values },
     file)
  | none =>
    match roic_from_filings company ticker years with
    | .error e => (.error e, file)
    | .ok result =>
      let cache_data := { cache.getD emptyRecord with roic_history := some result }
      (.ok result, save_to_cache ticker cache_data now)

/-- Try-block body of `extract_wacc_components` (lines 475-608), run on a
cache miss: the single latest 10-K is read; debt figures default to 0; cost
of debt defaults to 5% unless interest expense is truthy, debt is positive
and the quotient passes the `[0, 0.20]` bound; missing or non-positive
stockholders equity and non-positive total capital are hard
`FinancialDataError`s. A failed company lookup is the `except Exception`
path re-raising as a plain `FinancialDataError`. -/
def wacc_from_filings (company : Option CompanyData) (ticker : String)
    (risk_free_rate market_risk_premium beta : Option ℚ) :
    Except FinError WACCComponents :=
  match company with
  | none =>
    .error (.financialData ("Failed to extract WACC components for " ++ ticker))
  | some co =>
    match co.latest_tenk with
    | none => .error (.financialData ("No 10-K filing found for " ++ ticker))
    | some latest_10k =>
      match latest_10k.financials with
      | none => .error (.financialData ("No financials available for " ++ ticker))
      | some financials =>
        match financials.income_statement, financials.balance_sheet with
        | some income_stmt, some balance_sheet =>
          let short_term_debt := balance_sheet.debt_current_first.getD 0
          let long_term_debt := balance_sheet.long_term_debt.getD 0
          let total_debt := short_term_debt + long_term_debt
          let cost_of_debt :=
            match income_stmt.interest_expense with
            | some interest_expense =>
              if interest_expense ≠ 0 ∧ total_debt > 0 then
                let cd := |interest_expense| / total_debt
                if cd < 0 ∨ cd > 20/100 then 5/100 else cd
              else 5/100
            | none => 5/100
          match balance_sheet.stockholders_equity with
          | none =>
            .error (.financialData ("Invalid stockholders equity for " ++ ticker))
          | some stockholders_equity =>
            if stockholders_equity ≤ 0 then
              .error (.financialData ("Invalid stockholders equity for " ++ ticker))
            else
              let total_equity := stockholders_equity
              let tax_rate := effective_tax_rate income_stmt.income_tax_expense
                income_stmt.income_before_tax
              let total_capital := total_equity + total_debt
              if total_capital ≤ 0 then
                .error (.financialData ("Invalid total capital for " ++ ticker))
              else
                let rf := risk_free_rate.getD DEFAULT_RISK_FREE_RATE
                let mrp := market_risk_premium.getD DEFAULT_MARKET_RISK_PREMIUM
                let b := beta.getD DEFAULT_BETA
                .ok { cost_of_equity := rf + b * mrp,
                      cost_of_debt := cost_of_debt,
                      tax_rate := tax_rate,
                      debt_ratio := total_debt / total_capital,
                      equity_ratio := total_equity / total_capital,
                      total_debt := total_debt,
                      total_equity := total_equity,
                      risk_free_rate := rf,
                      beta := b,
                      market_risk_premium := mrp }
        | _, _ =>
          .error (.financialData ("Missing financial statements for " ++ ticker))

/-- Embedding of `extract_wacc_components` (lines 433-608): a fresh cached
`wacc_components` entry is returned verbatim (lines 469-473, ignoring the
rate overrides of the current call); otherwise the latest filing is processed
by `wacc_from_filings` and, on success, the result is merged into the loaded
cache record (an empty record when none was loaded, lines 598-601) and
saved. -/
def extract_wacc_components (company : Option CompanyData) (file : CacheFile)
    (now : Int) (ticker : String)
    (risk_free_rate market_risk_premium beta : Option ℚ) :
    Except FinError WACCComponents × CacheFile :=
  let cache := load_from_cache file now
  match cache.bind CacheRecord.wacc_components with
  | some cached_wacc => (.ok cached_wacc, file)
  | none =>
    match wacc_from_filings company ticker risk_free_rate market_risk_premium beta with
    | .error e => (.error e, file)
    | .ok result =>
      let cache_data := { cache.getD emptyRecord with wacc_components := some result }
      (.ok result, save_to_cache ticker cache_data now)

/-- The overrides dictionary accepted by `calculate_wacc`; `dict.get` on a
missing key yields `None`, hence optional fields. -/
structure Overrides where
  risk_free_rate : Option ℚ
  market_risk_premium : Option ℚ
  beta : Option ℚ
deriving DecidableEq

/-- The empty overrides dictionary. -/
def noOverrides : Overrides :=
  { risk_free_rate := none, market_risk_premium := none, beta := none }

/-- Embedding of `calculate_wacc` (lines 611-687): delegate to
`extract_wacc_components`, combine the components into the baseline WACC, add
the two sensitivity scenarios when requested (risk-free rate plus 100bp, and
minus 100bp floored at 0, with unchanged weights, cost of debt and tax rate).
The surrounding `except Exception` re-raises every failure as a plain
`FinancialDataError`. -/
def calculate_wacc (company : Option CompanyData) (file : CacheFile) (now : Int)
    (ticker : String) (overrides : Overrides) (sensitivity : Bool) :
    Except FinError WACCResult × CacheFile :=
  match extract_wacc_components company file now ticker
      overrides.risk_free_rate overrides.market_risk_premium overrides.beta with
  | (.error _, file1) =>
    (.error (.financialData ("Failed to calculate WACC for " ++ ticker)), file1)
  | (.ok components, file1) =>
    let wacc_equity_component := components.equity_ratio * components.cost_of_equity
    let wacc_debt_component :=
      components.debt_ratio * components.cost_of_debt * (1 - components.tax_rate)
    let baseline_wacc := wacc_equity_component + wacc_debt_component
    let scenarios : Scenarios :=
      if sensitivity then
        let pessimistic_rf := components.risk_free_rate + 1/100
        let pessimistic_re := pessimistic_rf + components.beta * components.market_risk_premium
        let pessimistic_wacc := components.equity_ratio * pessimistic_re +
          components.debt_ratio * components.cost_of_debt * (1 - components.tax_rate)
        let optimistic_rf := max 0 (components.risk_free_rate - 1/100)
        let optimistic_re := optimistic_rf + components.beta * components.market_risk_premium
        let optimistic_wacc := components.equity_ratio * optimistic_re +
          components.debt_ratio * components.cost_of_debt * (1 - components.tax_rate)
        { base := baseline_wacc,
          pessimistic := some pessimistic_wacc,
          optimistic := some optimistic_wacc }
      else
        { base := baseline_wacc, pessimistic := none, optimistic := none }
    (.ok { baseline_wacc := baseline_wacc, scenarios := scenarios,
           components_breakdown := components }, file1)

/-- Embedding of `calculate_spread` (lines 690-767): ROIC history, then WACC
with sensitivity, per-year spread against the single baseline WACC, trend
slope over the last three spreads with strict 2% thresholds, durability with
the strong test evaluated before the weak test, then merge of the full result
into a freshly loaded cache record. The surrounding `except Exception`
re-raises every failure (including `InsufficientDataError` from the ROIC
step) as a plain `FinancialDataError`. -/
def calculate_spread (company : Option CompanyData) (file : CacheFile) (now : Int)
    (ticker : String) (years : Nat) : Except FinError SpreadResult × CacheFile :=
  match extract_roic_history company file now ticker years with
  | (.error _, file1) =>
    (.error (.financialData ("Failed to calculate spread for " ++ ticker)), file1)
  | (.ok roic_data, file1) =>
    match calculate_wacc company file1 now ticker noOverrides true with
    | (.error _, file2) =>
      (.error (.financialData ("Failed to calculate spread for " ++ ticker)), file2)
    | (.ok wacc_result, file2) =>
      let spread_history := roic_data.roic_values.map
        (fun roic => roic - wacc_result.baseline_wacc)
      let current_spread := spread_history.getLast?.getD 0
      let spread_trend : String :=
        if 3 ≤ spread_history.length then
          let recent_spreads := spread_history.drop (spread_history.length - 3)
          let slope := (recent_spreads.getLast?.getD 0 - recent_spreads.head?.getD 0) / 2
          if slope > 2/100 then "improving"
          else if slope < -(2/100) then "deteriorating"
          else "stable"
        else "stable"
      let durability : String :=
        if current_spread > 5/100 ∧ spread_trend = "improving" then "strong"
        else if current_spread < 0 ∨
            (spread_trend = "deteriorating" ∧ current_spread < 3/100) then "weak"
        else "uncertain"
      let result : SpreadResult :=
        { current_spread := current_spread,
          spread_history := spread_history,
          years := roic_data.years,
          spread_trend := spread_trend,
          durability_assessment := durability,
          roic_data := roic_data,
          wacc_result := wacc_result }
      let cache_data := (load_from_cache file2 now).getD emptyRecord
      let cache_data2 := { cache_data with spread_result := some result }
      (.ok result, save_to_cache ticker cache_data2 now)

/-- Specification-side trend classifier, written from the words of spec
section 4.5: take the 3 most recent spread values `[s0, s1, s2]`, compute
`slope = (s2 - s0) / 2`, classify with strict 2% thresholds; fewer than 3
years default to stable. -/
def spec_trend (spread_history : List ℚ) : String :=
  if spread_history.length < 3 then "stable"
  else
    let recent := spread_history.drop (spread_history.length - 3)
    let s0 : ℚ := (recent[0]?).getD 0
    let s2 : ℚ := (recent[2]?).getD 0
    let slope := (s2 - s0) / 2
    if slope > 2/100 then "improving"
    else if slope < -(2/100) then "deteriorating"
    else "stable"

/-- Specification-side durability classifier, written from the words of spec
section 4.5: the strong condition is evaluated before the weak condition,
anything else is uncertain. -/
def spec_durability (current_spread : ℚ) (trend : String) : String :=
  if current_spread > 5/100 ∧ trend = "improving" then "strong"
  else if current_spread < 0 ∨ (trend = "deteriorating" ∧ current_spread < 3/100) then "weak"
  else "uncertain"

/-- Lexicographic key interpreting `rowLE` inside Mathlib's `Lex` order,
used to obtain transitivity and totality of the Python tuple sort order. -/
def rowKey (a : RoicRow) : Lex (Int × Lex (ℚ × Lex (ℚ × ℚ))) :=
  toLex (a.year, toLex (a.roic, toLex (a.nopat, a.invested_capital)))

/-- Projection: the beta field of a successful WACC-components result. -/
def okBeta : Except FinError WACCComponents → Option ℚ
  | .ok w => some w.beta
  | .error _ => none

/-- Projection: the tax-rate field of a successful WACC-components result. -/
def okTaxRate : Except FinError WACCComponents → Option ℚ
  | .ok w => some w.tax_rate
  | .error _ => none

/-- Projection: the scenarios dictionary of a successful WACC result. -/
def okScenarios : Except FinError WACCResult → Option Scenarios
  | .ok r => some r.scenarios
  | .error _ => none

/-- Projection: trend and durability classification of a successful spread
result. -/
def okTrend : Except FinError SpreadResult → Option (String × String)
  | .ok r => some (r.spread_trend, r.durability_assessment)
  | .error _ => none

/-- Projection: the `roic_history` key of a persisted cache file. -/
def fileRoicKey : CacheFile → Option ROICData
  | .valid r => r.roic_history
  | _ => none

/-- Projection: the `wacc_components` key of a persisted cache file. -/
def fileWaccKey : CacheFile → Option WACCComponents
  | .valid r => r.wacc_components
  | _ => none

/-- Projection: the `spread_result` key of a persisted cache file. -/
def fileSpreadKey : CacheFile → Option SpreadResult
  | .valid r => r.spread_result
  | _ => none

/-- Test for the `InsufficientDataError` exception class. -/
def isInsufficient {α : Type} : Except FinError α → Bool
  | .error (.insufficientData _) => true
  | _ => false

/-- Balance sheet with every field absent. -/
def emptyBalance : BalanceSheet :=
  { assets := none, cash_and_equivalents := none, liabilities_current := none,
    short_term_borrowings_first := none, debt_current_first := none,
    long_term_debt := none, stockholders_equity := none }

/-- Income statement with every field absent. -/
def emptyIncome : IncomeStmt :=
  { operating_income := none, income_tax_expense := none,
    income_before_tax := none, interest_expense := none }

/-- Test filing with the given year, the given operating income, total assets
of 100 and every other field absent: the effective tax rate defaults to 0.21,
so NOPAT is `oi * 79/100` and invested capital is 100. -/
def assets100Filing (year : Int) (oi : ℚ) : Filing :=
  { filing_year := year,
    financials := some
      { income_statement := some { emptyIncome with operating_income := some oi },
        balance_sheet := some { emptyBalance with assets := some 100 } } }

/-- Test company whose three filings yield ROIC values 0.20 (2021),
0.15 (2022) and 0.10 (2023): operating incomes are `10000 * roic / 79`. -/
def threeYearCompanyA : CompanyData :=
  { tenk_filings := [assets100Filing 2023 (1000/79), assets100Filing 2022 (1500/79),
                     assets100Filing 2021 (2000/79)],
    latest_tenk := none }

/-- Test company whose three filings yield ROIC values 0.15 (2021),
0.18 (2022) and 0.22 (2023). -/
def threeYearCompanyB : CompanyData :=
  { tenk_filings := [assets100Filing 2023 (2200/79), assets100Filing 2022 (1800/79),
                     assets100Filing 2021 (1500/79)],
    latest_tenk := none }

/-- Test company with only two valid filing-years. -/
def twoYearCompany : CompanyData :=
  { tenk_filings := [assets100Filing 2023 10, assets100Filing 2022 10],
    latest_tenk := none }

/-- Test company whose latest 10-K has stockholders equity 100 and every
other field absent: WACC extraction succeeds with equity ratio 1, debt 0,
default cost of debt and default tax rate. -/
def equityCompany : CompanyData :=
  { tenk_filings := [],
    latest_tenk := some
      { filing_year := 2023,
        financials := some
          { income_statement := some emptyIncome,
            balance_sheet := some { emptyBalance with stockholders_equity := some 100 } } } }

/-- Test company whose latest 10-K reports a tax expense of exactly 0 against
a pre-tax income of 100 (plus stockholders equity 100). -/
def zeroTaxCompany : CompanyData :=
  { tenk_filings := [],
    latest_tenk := some
      { filing_year := 2023,
        financials := some
          { income_statement := some
              { emptyIncome with
                income_tax_expense := some 0, income_before_tax := some 100 },
            balance_sheet := some { emptyBalance with stockholders_equity := some 100 } } } }

/-- Balance sheet reporting stockholders equity of -5 and nothing else. -/
def negEquityBalance : BalanceSheet :=
  { emptyBalance with stockholders_equity := some (-5) }

/-- Financials of the negative-equity test filing. -/
def negEquityFin : Financials :=
  { income_statement := some emptyIncome, balance_sheet := some negEquityBalance }

/-- Latest 10-K of the negative-equity test company. -/
def negEquityFiling : Filing :=
  { filing_year := 2023, financials := some negEquityFin }

/-- Test company whose latest 10-K reports negative stockholders equity. -/
def negEquityCompany : CompanyData :=
  { tenk_filings := [], latest_tenk := some negEquityFiling }

/-- WACC components whose baseline WACC evaluates to a flat 0.08 (equity
ratio 1, cost of equity 8%). -/
def w08 : WACCComponents :=
  { cost_of_equity := 8/100, cost_of_debt := 5/100, tax_rate := 21/100,
    debt_ratio := 0, equity_ratio := 1, total_debt := 0, total_equity := 100,
    risk_free_rate := 4/100, beta := 1, market_risk_premium := 55/1000 }

/-- Fresh cache record (stamped at clock 0) holding only `wacc_components`. -/
def cacheW08 : CacheRecord :=
  { roic_history := none, wacc_components := some w08, spread_result := none,
    cache_date := some 0, ticker := some "TICK" }

/-- Stale cache record, stamped 91 days before clock 0, holding only
`wacc_components`. -/
def staleWaccRecord : CacheRecord :=
  { roic_history := none, wacc_components := some w08, spread_result := none,
    cache_date := some (-(91 * 86400)), ticker := some "TICK" }

/-- The ROIC history extracted from `threeYearCompanyA`. -/
def roicA : ROICData :=
  { years := [2021, 2022, 2023], roic_values := [1/5, 3/20, 1/10],
    nopat_values := [20, 15, 10], invested_capital_values := [100, 100, 100] }

/-- Cache record holding only a `roic_history` sub-result (no stamps yet). -/
def c6record : CacheRecord :=
  { roic_history := some roicA, wacc_components := none, spread_result := none,
    cache_date := none, ticker := none }

/-- Fresh cache record (stamped at clock 0) holding only `roic_history`. -/
def cacheRoicA : CacheRecord :=
  { roic_history := some roicA, wacc_components := none, spread_result := none,
    cache_date := some 0, ticker := some "TICK" }

/-- Overrides dictionary carrying only a negative risk-free rate of -0.02. -/
def negRfOverrides : Overrides :=
  { risk_free_rate := some (-(1/50)), market_risk_premium := none, beta := none }

/-- The WACC result `calculate_wacc` computes from `equityCompany` with
default overrides and sensitivity on. -/
def c4res : WACCResult :=
  { baseline_wacc := 95/1000,
    scenarios := { base := 95/1000, pessimistic := some (105/1000),
                   optimistic := some (85/1000) },
    components_breakdown :=
      { cost_of_equity := 95/1000, cost_of_debt := 5/100, tax_rate := 21/100,
        debt_ratio := 0, equity_ratio := 1, total_debt := 0, total_equity := 100,
        risk_free_rate := 4/100, beta := 1, market_risk_premium := 55/1000 } }

/-- The WACC result obtained from the cached `w08` components with
sensitivity on. -/
def waccResW08 : WACCResult :=
  { baseline_wacc := 2/25,
    scenarios := { base := 2/25, pessimistic := some (105/1000),
                   optimistic := some (85/1000) },
    components_breakdown := w08 }

/-- The spread result `calculate_spread` computes for `threeYearCompanyA`
against the cached flat 0.08 WACC. -/
def spreadResA : SpreadResult :=
  { current_spread := 1/50, spread_history := [3/25, 7/100, 1/50],
    years := [2021, 2022, 2023], spread_trend := "deteriorating",
    durability_assessment := "weak", roic_data := roicA,
    wacc_result := waccResW08 }

/-- Loading a record saved at the same clock instant succeeds and returns the
record with fresh stamps. -/
theorem load_save_fresh (t : String) (d : CacheRecord) (now : Int) :
    load_from_cache (save_to_cache t d now) now =
      some { d with cache_date := some now, ticker := some t } := by
  simp [load_from_cache, save_to_cache, Int.sub_self, Int.zero_fdiv]

/-- A successful cache load can only come from a valid file holding exactly
the returned record. -/
theorem load_some_valid {file : CacheFile} {now : Int} {r : CacheRecord}
    (h : load_from_cache file now = some r) : file = CacheFile.valid r := by
  cases file with
  | missing => simp [load_from_cache] at h
  | unreadable => simp [load_from_cache] at h
  | valid d =>
    simp only [load_from_cache] at h
    split at h
    · simp_all
    · simp at h

/-- On a cache miss for `roic_history`, `extract_roic_history` returns
exactly the value computed from the filings. -/
theorem extract_roic_fst_of_miss {company : Option CompanyData} {file : CacheFile}
    {now : Int} {ticker : String} {years : Nat}
    (h : (load_from_cache file now).bind CacheRecord.roic_history = none) :
    (extract_roic_history company file now ticker years).fst =
      roic_from_filings company ticker years := by
  simp only [extract_roic_history, h]
  cases hm : roic_from_filings company ticker years <;> simp

/-- On a cache miss for `wacc_components`, `extract_wacc_components` returns
exactly the value computed from the latest filing. -/
theorem extract_wacc_fst_of_miss {company : Option CompanyData} {file : CacheFile}
    {now : Int} {ticker : String} {rf mrp beta : Option ℚ}
    (h : (load_from_cache file now).bind CacheRecord.wacc_components = none) :
    (extract_wacc_components company file now ticker rf mrp beta).fst =
      wacc_from_filings company ticker rf mrp beta := by
  simp only [extract_wacc_components, h]
  cases hm : wacc_from_filings company ticker rf mrp beta <;> simp

/-- The Boolean tuple order agrees with the nested lexicographic order on
keys. -/
theorem rowLE_iff (a b : RoicRow) : rowLE a b = true ↔ rowKey a ≤ rowKey b := by
  simp [rowLE, rowKey, Prod.Lex.le_iff]

/-- Transitivity of the Python tuple sort order. -/
theorem rowLE_trans (a b c : RoicRow) (h1 : rowLE a b = true)
    (h2 : rowLE b c = true) : rowLE a c = true := by
  rw [rowLE_iff] at *
  exact le_trans h1 h2

/-- Totality of the Python tuple sort order. -/
theorem rowLE_total (a b : RoicRow) : (rowLE a b || rowLE b a) = true := by
  rcases le_total (rowKey a) (rowKey b) with h | h
  · simp [rowLE_iff, h]
  · simp [rowLE_iff, h]

/-- The tuple order is, in particular, ascending in the year component. -/
theorem rowLE_year {a b : RoicRow} (h : rowLE a b = true) : a.year ≤ b.year := by
  simp only [rowLE, decide_eq_true_eq] at h
  rcases h with h | ⟨h, _⟩
  · exact le_of_lt h
  · exact le_of_eq h

/-- Every row produced by the per-filing loop body has strictly positive
invested capital and an ROIC equal to NOPAT over invested capital. -/
theorem process_filing_inv {filing : Filing} {row : RoicRow}
    (h : process_filing filing = some row) :
    0 < row.invested_capital ∧ row.roic = row.nopat / row.invested_capital := by
  unfold process_filing at h
  split at h
  · exact absurd h (by simp)
  · split at h
    · split at h
      · exact absurd h (by simp)
      · split at h
        · exact absurd h (by simp)
        · dsimp only at h
          split at h
          · exact absurd h (by simp)
          · rename_i hic
            rw [Option.some_inj] at h
            subst h
            exact ⟨lt_of_not_le hic, rfl⟩
    · exact absurd h (by simp)

theorem roic_from_filings_ok {company : Option CompanyData} {ticker : String}
    {years : Nat} {d : ROICData}
    (h : roic_from_filings company ticker years = .ok d) :
    List.Sorted (· ≤ ·) d.years ∧
    d.roic_values.length = d.years.length ∧
    d.nopat_values.length = d.years.length ∧
    d.invested_capital_values.length = d.years.length ∧
    ∀ i, i < d.years.length →
      0 < d.invested_capital_values.getD i 0 ∧
      d.roic_values.getD i 0 =
        d.nopat_values.getD i 0 / d.invested_capital_values.getD i 0 := by
  unfold roic_from_filings at h
  cases company with
  | none => exact absurd h (by simp)
  | some co =>
    dsimp only at h
    split at h
    · exact absurd h (by simp)
    · split at h
      · exact absurd h (by simp)
      · rw [Except.ok.injEq] at h
        subst h
        have hpair : List.Pairwise (fun a b => rowLE a b = true)
            (((co.tenk_filings.take years).filterMap process_filing).mergeSort rowLE) :=
          List.sorted_mergeSort rowLE_trans rowLE_total _
        have hmem : ∀ t ∈ ((co.tenk_filings.take years).filterMap process_filing).mergeSort rowLE,
            0 < t.invested_capital ∧ t.roic = t.nopat / t.invested_capital := by
          intro t ht
          rw [List.mem_mergeSort] at ht
          obtain ⟨filing, _, hpf⟩ := List.mem_filterMap.mp ht
          exact process_filing_inv hpf
        refine ⟨?_, by simp, by simp, by simp, ?_⟩
        · rw [List.Sorted, List.pairwise_map]
          exact hpair.imp (fun hab => rowLE_year hab)
        · intro i hi
          simp only [List.length_map] at hi
          have hsome := List.getElem?_eq_getElem hi
          obtain ⟨hpos, hr⟩ := hmem _ (List.getElem_mem hi)
          constructor
          · rw [List.getD_eq_getElem?_getD, List.getElem?_map, hsome]
            simpa using hpos
          · rw [List.getD_eq_getElem?_getD, List.getD_eq_getElem?_getD,
              List.getD_eq_getElem?_getD, List.getElem?_map, List.getElem?_map,
              List.getElem?_map, hsome]
            simpa using hr

theorem roic_insufficient_iff (co : CompanyData) (ticker : String) (years : Nat) :
    isInsufficient (roic_from_filings (some co) ticker years) = true ↔
      ((co.tenk_filings.take years).filterMap process_filing).length < 3 := by
  unfold roic_from_filings
  dsimp only
  split
  · rename_i hlen
    simp only [isInsufficient, true_iff]
    calc ((co.tenk_filings.take years).filterMap process_filing).length
        ≤ (co.tenk_filings.take years).length := List.length_filterMap_le _ _
      _ = 0 := hlen
      _ < 3 := by norm_num
  · split
    · rename_i hlt
      simp only [isInsufficient, true_iff]
      exact hlt
    · rename_i hlt
      simp only [isInsufficient]
      constructor
      · intro hh
        exact absurd hh (by simp)
      · intro hh
        exact absurd hh hlt

theorem wacc_from_filings_ok {company : Option CompanyData} {ticker : String}
    {rf mrp beta : Option ℚ} {w : WACCComponents}
    (h : wacc_from_filings company ticker rf mrp beta = .ok w) :
    0 < w.equity_ratio ∧
    w.risk_free_rate = rf.getD DEFAULT_RISK_FREE_RATE ∧
    w.beta = beta.getD DEFAULT_BETA ∧
    w.market_risk_premium = mrp.getD DEFAULT_MARKET_RISK_PREMIUM ∧
    w.cost_of_equity = w.risk_free_rate + w.beta * w.market_risk_premium := by
  unfold wacc_from_filings at h
  split at h
  · exact absurd h (by simp)
  · split at h
    · exact absurd h (by simp)
    · split at h
      · exact absurd h (by simp)
      · split at h
        · dsimp only at h
          split at h
          · exact absurd h (by simp)
          · split at h
            · exact absurd h (by simp)
            · rename_i hse
              split at h
              · exact absurd h (by simp)
              · rename_i hcap
                rw [Except.ok.injEq] at h
                subst h
                exact ⟨div_pos (lt_of_not_le hse) (lt_of_not_le hcap), rfl, rfl, rfl, rfl⟩
        · exact absurd h (by simp)

theorem calculate_wacc_ok {company : Option CompanyData} {file : CacheFile}
    {now : Int} {ticker : String} {ov : Overrides} {sens : Bool}
    {res : WACCResult} {f2 : CacheFile}
    (h : calculate_wacc company file now ticker ov sens = (.ok res, f2)) :
    extract_wacc_components company file now ticker ov.risk_free_rate
      ov.market_risk_premium ov.beta = (.ok res.components_breakdown, f2) := by
  rcases hE : extract_wacc_components company file now ticker ov.risk_free_rate
    ov.market_risk_premium ov.beta with ⟨e1, ef⟩
  simp only [calculate_wacc, hE] at h
  cases e1 with
  | error e => simp at h
  | ok wcomp =>
    simp only [Prod.mk.injEq, Except.ok.injEq] at h
    obtain ⟨h1, h2⟩ := h
    subst h1
    subst h2
    rfl

theorem extract_roic_post {company : Option CompanyData} {file : CacheFile}
    {now : Int} {ticker : String} {years : Nat} {r : CacheRecord}
    {d : ROICData} {f1 : CacheFile}
    (hload : load_from_cache file now = some r)
    (h : extract_roic_history company file now ticker years = (.ok d, f1)) :
    ∃ r1, load_from_cache f1 now = some r1 ∧ r1.roic_history = some d ∧
      r1.wacc_components = r.wacc_components ∧ r1.spread_result = r.spread_result := by
  simp only [extract_roic_history, hload, Option.bind] at h
  cases hr : r.roic_history with
  | some v =>
    rw [hr] at h
    dsimp only at h
    simp only [Prod.mk.injEq, Except.ok.injEq] at h
    obtain ⟨h1, h2⟩ := h
    subst h2
    refine ⟨r, hload, ?_, rfl, rfl⟩
    rw [hr, ← h1]
  | none =>
    rw [hr] at h
    dsimp only at h
    cases hp : roic_from_filings company ticker years with
    | error e => rw [hp] at h; simp at h
    | ok result =>
      rw [hp] at h
      dsimp only at h
      simp only [Prod.mk.injEq, Except.ok.injEq] at h
      obtain ⟨h1, h2⟩ := h
      subst h1
      subst h2
      refine ⟨{ r with roic_history := some result, cache_date := some now, ticker := some ticker }, ?_, rfl, rfl, rfl⟩
      simpa using load_save_fresh ticker { r with roic_history := some result } now

theorem extract_wacc_post {company : Option CompanyData} {file : CacheFile}
    {now : Int} {ticker : String} {rf mrp beta : Option ℚ} {r1 : CacheRecord}
    {w : WACCComponents} {f2 : CacheFile}
    (hload : load_from_cache file now = some r1)
    (h : extract_wacc_components company file now ticker rf mrp beta = (.ok w, f2)) :
    ∃ r2, load_from_cache f2 now = some r2 ∧ r2.wacc_components = some w ∧
      r2.roic_history = r1.roic_history ∧ r2.spread_result = r1.spread_result := by
  simp only [extract_wacc_components, hload, Option.bind] at h
  cases hr : r1.wacc_components with
  | some v =>
    rw [hr] at h
    dsimp only at h
    simp only [Prod.mk.injEq, Except.ok.injEq] at h
    obtain ⟨h1, h2⟩ := h
    subst h2
    exact ⟨r1, hload, by rw [hr, h1], rfl, rfl⟩
  | none =>
    rw [hr] at h
    dsimp only at h
    cases hp : wacc_from_filings company ticker rf mrp beta with
    | error e => rw [hp] at h; simp at h
    | ok result =>
      rw [hp] at h
      dsimp only at h
      simp only [Prod.mk.injEq, Except.ok.injEq] at h
      obtain ⟨h1, h2⟩ := h
      subst h1
      subst h2
      refine ⟨{ r1 with wacc_components := some result, cache_date := some now, ticker := some ticker }, ?_, rfl, rfl, rfl⟩
      simpa using load_save_fresh ticker { r1 with wacc_components := some result } now

/-- Claim C10: `calculate_spread` never surfaces `InsufficientDataError` to
its caller, and neither does `calculate_wacc`: every failure of the inner
extraction steps, including an insufficient-data failure of the ROIC step, is
re-raised as a plain `FinancialDataError`, so the insufficient-data versus
financial-data distinction is not observable through these two functions. -/
theorem claim10_error_collapse (company : Option CompanyData) (file : CacheFile)
    (now : Int) (ticker : String) (years : Nat) (overrides : Overrides)
    (sensitivity : Bool) :
    isInsufficient (calculate_spread company file now ticker years).fst = false ∧
    isInsufficient (calculate_wacc company file now ticker overrides sensitivity).fst
      = false := by
  constructor
  · rcases hR : extract_roic_history company file now ticker years with ⟨r1, f1⟩
    cases r1 with
    | error e => simp [calculate_spread, hR, isInsufficient]
    | ok d =>
      rcases hW : calculate_wacc company f1 now ticker noOverrides true with ⟨w1, f2⟩
      cases w1 with
      | error e => simp [calculate_spread, hR, hW, isInsufficient]
      | ok wres => simp [calculate_spread, hR, hW, isInsufficient]
  · rcases hE : extract_wacc_components company file now ticker
      overrides.risk_free_rate overrides.market_risk_premium overrides.beta with ⟨e1, ef⟩
    cases e1 with
    | error e => simp [calculate_wacc, hE, isInsufficient]
    | ok w => simp [calculate_wacc, hE, isInsufficient]

/-- Claim C2: on a cache miss, a failed company lookup surfaces as the plain
financial-data error (never the insufficient-data one), while for an existing
company the insufficient-data error is raised exactly when fewer than 3 valid
filing-years survive processing (in particular for 0, 1 or 2 valid years). -/
theorem claim2_error_taxonomy (file : CacheFile) (now : Int) (ticker : String)
    (years : Nat) (co : CompanyData)
    (h : (load_from_cache file now).bind CacheRecord.roic_history = none) :
    (extract_roic_history none file now ticker years).fst =
      .error (.financialData ("Failed to extract ROIC history for " ++ ticker)) ∧
    isInsufficient (extract_roic_history none file now ticker years).fst = false ∧
    (isInsufficient (extract_roic_history (some co) file now ticker years).fst = true ↔
      ((co.tenk_filings.take years).filterMap process_filing).length < 3) := by
  refine ⟨?_, ?_, ?_⟩
  · rw [extract_roic_fst_of_miss h]
    rfl
  · rw [extract_roic_fst_of_miss h]
    rfl
  · rw [extract_roic_fst_of_miss h]
    exact roic_insufficient_iff co ticker years

/-- Claim C2 witness: a company with two valid filing-years raises the
insufficient-data error, and an unknown company raises the plain
financial-data error. -/
theorem claim2_witness :
    (extract_roic_history none CacheFile.missing 0 "TICK" 5).fst =
      .error (.financialData ("Failed to extract ROIC history for " ++ "TICK")) ∧
    isInsufficient (extract_roic_history (some twoYearCompany) CacheFile.missing
      0 "TICK" 5).fst = true := by
  have h := claim2_error_taxonomy CacheFile.missing 0 "TICK" 5 twoYearCompany rfl
  refine ⟨h.1, h.2.2.mpr ?_⟩
  norm_num [twoYearCompany, assets100Filing, process_filing, emptyIncome, emptyBalance,
    effective_tax_rate, List.filterMap]

/-- Claim C9: on a cache miss, every ROIC history returned successfully has
its years sorted ascending, all four component lists of equal length, every
recorded invested capital strictly positive, and each ROIC value equal to the
NOPAT value divided by the invested-capital value at the same index. -/
theorem claim9_roic_invariants (company : Option CompanyData) (file : CacheFile)
    (now : Int) (ticker : String) (years : Nat) (d : ROICData)
    (hmiss : (load_from_cache file now).bind CacheRecord.roic_history = none)
    (h : (extract_roic_history company file now ticker years).fst = .ok d) :
    List.Sorted (· ≤ ·) d.years ∧
    d.roic_values.length = d.years.length ∧
    d.nopat_values.length = d.years.length ∧
    d.invested_capital_values.length = d.years.length ∧
    ∀ i, i < d.years.length →
      0 < d.invested_capital_values.getD i 0 ∧
      d.roic_values.getD i 0 =
        d.nopat_values.getD i 0 / d.invested_capital_values.getD i 0 := by
  rw [extract_roic_fst_of_miss hmiss] at h
  exact roic_from_filings_ok h

/-- Claim C9 witness: the invariants hold at the concrete three-filing
company, whose extraction result is `roicA`. -/
theorem claim9_witness :
    (extract_roic_history (some threeYearCompanyA) CacheFile.missing 0 "TICK" 5).fst
      = .ok roicA ∧
    List.Sorted (· ≤ ·) roicA.years ∧
    0 < roicA.invested_capital_values.getD 0 0 ∧
    roicA.roic_values.getD 0 0 =
      roicA.nopat_values.getD 0 0 / roicA.invested_capital_values.getD 0 0 := by
  have hrun : (extract_roic_history (some threeYearCompanyA) CacheFile.missing
      0 "TICK" 5).fst = .ok roicA := by
    norm_num [extract_roic_history, roic_from_filings, load_from_cache,
      threeYearCompanyA, assets100Filing, emptyIncome, emptyBalance, process_filing,
      effective_tax_rate, List.mergeSort, rowLE, roicA, Option.bind, List.filterMap]
  have h := claim9_roic_invariants (some threeYearCompanyA) CacheFile.missing
    0 "TICK" 5 roicA rfl hrun
  have h0 := h.2.2.2.2 0 (by norm_num [roicA])
  exact ⟨hrun, h.1, h0.1, h0.2⟩

/-- Claim C8: on a cache miss, when the latest filing's statements are
present, a missing or non-positive stockholders equity makes
`extract_wacc_components` fail with the financial-data error (no default is
substituted), and so does a non-positive total capital. -/
theorem claim8_equity_mandatory (company : Option CompanyData) (file : CacheFile)
    (now : Int) (ticker : String) (rf mrp beta : Option ℚ) (co : CompanyData)
    (f : Filing) (fin : Financials) (istmt : IncomeStmt) (bs : BalanceSheet)
    (hmiss : (load_from_cache file now).bind CacheRecord.wacc_components = none)
    (hco : company = some co) (hf : co.latest_tenk = some f)
    (hfin : f.financials = some fin) (hstmt : fin.income_statement = some istmt)
    (hbs : fin.balance_sheet = some bs) :
    (bs.stockholders_equity = none →
      (extract_wacc_components company file now ticker rf mrp beta).fst =
        .error (.financialData ("Invalid stockholders equity for " ++ ticker))) ∧
    (∀ se, bs.stockholders_equity = some se → se ≤ 0 →
      (extract_wacc_components company file now ticker rf mrp beta).fst =
        .error (.financialData ("Invalid stockholders equity for " ++ ticker))) ∧
    (∀ se, bs.stockholders_equity = some se → 0 < se →
      se + (bs.debt_current_first.getD 0 + bs.long_term_debt.getD 0) ≤ 0 →
      (extract_wacc_components company file now ticker rf mrp beta).fst =
        .error (.financialData ("Invalid total capital for " ++ ticker))) := by
  subst hco
  rw [extract_wacc_fst_of_miss hmiss]
  refine ⟨fun hse => ?_, fun se hse hle => ?_, fun se hse hpos hcap => ?_⟩
  · simp [wacc_from_filings, hf, hfin, hstmt, hbs, hse]
  · simp [wacc_from_filings, hf, hfin, hstmt, hbs, hse, hle]
  · simp [wacc_from_filings, hf, hfin, hstmt, hbs, hse,
      show ¬ se ≤ 0 from not_le.mpr hpos, hcap]

/-- Claim C8 witness: the concrete company reporting stockholders equity of
-5 fails WACC-component extraction with the financial-data error. -/
theorem claim8_witness :
    (extract_wacc_components (some negEquityCompany) CacheFile.missing 0 "TICK"
      none none none).fst =
      .error (.financialData ("Invalid stockholders equity for " ++ "TICK")) := by
  exact (claim8_equity_mandatory (some negEquityCompany) CacheFile.missing 0 "TICK"
    none none none negEquityCompany negEquityFiling negEquityFin emptyIncome
    negEquityBalance rfl rfl rfl rfl rfl rfl).2.1 (-5) rfl (by norm_num)

/-- Claim C6 (amended): a saved record loads back with identical sub-result
content while strictly less than 90 floored days old; at 90 or more floored
days of age (in particular at exactly 90 days) the load is a cache miss, and
unreadable or missing cache files always load as a miss. -/
theorem claim6_cache_staleness (ticker : String) (r : CacheRecord) (now t : Int) :
    (Int.fdiv (t - now) secondsPerDay < 90 →
      load_from_cache (save_to_cache ticker r now) t =
        some { r with cache_date := some now, ticker := some ticker }) ∧
    (90 ≤ Int.fdiv (t - now) secondsPerDay →
      load_from_cache (save_to_cache ticker r now) t = none) ∧
    load_from_cache CacheFile.unreadable t = none ∧
    load_from_cache CacheFile.missing t = none := by
  refine ⟨fun hlt => ?_, fun hge => ?_, rfl, rfl⟩
  · simp [load_from_cache, save_to_cache, hlt]
  · simp [load_from_cache, save_to_cache, not_lt.mpr hge]

/-- Claim C6 counterexample: a record saved at clock 0 and loaded exactly 90
days later is at most 90 days old, yet `load_from_cache` reports a cache miss
instead of returning the saved `roic_history` content. -/
theorem claim6_counterexample :
    load_from_cache (save_to_cache "TICK" c6record 0) (90 * secondsPerDay) = none ∧
    Int.fdiv (90 * secondsPerDay - 0) secondsPerDay ≤ 90 ∧
    c6record.roic_history = some roicA := by
  refine ⟨by decide, by decide, rfl⟩

/-- Claim C6 witness: the round-trip holds concretely at age 0. -/
theorem claim6_witness :
    load_from_cache (save_to_cache "TICK" c6record 0) 0 =
      some { c6record with cache_date := some 0, ticker := some "TICK" } := by
  exact (claim6_cache_staleness "TICK" c6record 0 0).1 (by decide)

/-- Claim C1 (amended): a fresh cached entry is returned verbatim, ignoring
the year-count and the rate overrides of the current call; in the absence of
a fresh cached entry the extraction result is identical to the result over a
missing cache file. Hence cached and uncached calls agree exactly when the
cached entry equals the uncached extraction result. -/
theorem claim1_cache_transparency (company : Option CompanyData) (file : CacheFile)
    (now : Int) (ticker : String) (years : Nat) (rf mrp beta : Option ℚ) :
    (∀ d, (load_from_cache file now).bind CacheRecord.roic_history = some d →
      (extract_roic_history company file now ticker years).fst = .ok d) ∧
    (∀ w, (load_from_cache file now).bind CacheRecord.wacc_components = some w →
      (extract_wacc_components company file now ticker rf mrp beta).fst = .ok w) ∧
    ((load_from_cache file now).bind CacheRecord.roic_history = none →
      (extract_roic_history company file now ticker years).fst =
        (extract_roic_history company CacheFile.missing now ticker years).fst) ∧
    ((load_from_cache file now).bind CacheRecord.wacc_components = none →
      (extract_wacc_components company file now ticker rf mrp beta).fst =
        (extract_wacc_components company CacheFile.missing now ticker rf mrp beta).fst) := by
  refine ⟨fun d hd => ?_, fun w hw => ?_, fun hmiss => ?_, fun hmiss => ?_⟩
  · simp only [extract_roic_history, hd]
  · simp only [extract_wacc_components, hw]
  · rw [extract_roic_fst_of_miss hmiss,
      @extract_roic_fst_of_miss company CacheFile.missing now ticker years rfl]
  · rw [extract_wacc_fst_of_miss hmiss,
      @extract_wacc_fst_of_miss company CacheFile.missing now ticker rf mrp beta rfl]

/-- Claim C1 counterexample: with a fresh cache entry populated by a previous
call using a beta override of 5, a call using a beta override of 2 returns a
different result than the same call without a cache: the cached entry is
returned verbatim, ignoring the override. -/
theorem claim1_counterexample :
    (extract_wacc_components (some equityCompany)
        (extract_wacc_components (some equityCompany) CacheFile.missing 0 "TICK"
          none none (some 5)).snd 0 "TICK" none none (some 2)).fst ≠
      (extract_wacc_components (some equityCompany) CacheFile.missing 0 "TICK"
        none none (some 2)).fst := by
  norm_num [extract_wacc_components, wacc_from_filings, load_from_cache, save_to_cache,
    equityCompany, emptyIncome, emptyBalance, effective_tax_rate, emptyRecord,
    DEFAULT_RISK_FREE_RATE, DEFAULT_MARKET_RISK_PREMIUM, DEFAULT_BETA, Option.bind,
    Int.zero_fdiv]

/-- Claim C1 witness: the amended statement instantiated concretely: a fresh
cached ROIC history is returned verbatim, and absence of a fresh entry makes
the result agree with the cache-less run. -/
theorem claim1_witness :
    (load_from_cache (CacheFile.valid cacheRoicA) 0).bind CacheRecord.roic_history
      = some roicA ∧
    (extract_roic_history (some threeYearCompanyB) (CacheFile.valid cacheRoicA)
      0 "TICK" 2).fst = .ok roicA ∧
    (load_from_cache CacheFile.unreadable 0).bind CacheRecord.wacc_components = none ∧
    (extract_wacc_components (some equityCompany) CacheFile.unreadable 0 "TICK"
      none none none).fst =
      (extract_wacc_components (some equityCompany) CacheFile.missing 0 "TICK"
        none none none).fst := by
  have hd : (load_from_cache (CacheFile.valid cacheRoicA) 0).bind
      CacheRecord.roic_history = some roicA := by
    norm_num [load_from_cache, cacheRoicA, Option.bind, Int.zero_fdiv]
  refine ⟨hd, ?_, rfl, ?_⟩
  · exact (claim1_cache_transparency (some threeYearCompanyB) (CacheFile.valid cacheRoicA)
      0 "TICK" 2 none none none).1 roicA hd
  · exact (claim1_cache_transparency (some equityCompany) CacheFile.unreadable
      0 "TICK" 5 none none none).2.2.2 rfl

/-- Claim C3 (amended): the effective tax rate equals the absolute quotient
of tax expense over pre-tax income whenever both figures are present and
non-zero and the quotient is at most 0.5; the 0.21 default is used when the
numerator is zero or missing, the denominator is zero or missing, or the
quotient exceeds 0.5 (in particular a zero tax expense yields the default,
not a zero rate). WACC extraction exposes exactly this rate, and the ROIC
loop derives NOPAT from it. -/
theorem claim3_tax_rate (te pt : ℚ) (o : Option ℚ) :
    (te ≠ 0 → pt ≠ 0 → |te / pt| ≤ 1/2 →
      effective_tax_rate (some te) (some pt) = |te / pt|) ∧
    effective_tax_rate none o = 21/100 ∧
    effective_tax_rate o none = 21/100 ∧
    effective_tax_rate (some 0) o = 21/100 ∧
    effective_tax_rate (some te) (some 0) = 21/100 ∧
    (1/2 < |te / pt| → effective_tax_rate (some te) (some pt) = 21/100) ∧
    (∀ company file now ticker rf mrp beta co f fin istmt bs w,
      (load_from_cache file now).bind CacheRecord.wacc_components = none →
      company = some co → co.latest_tenk = some f → f.financials = some fin →
      fin.income_statement = some istmt → fin.balance_sheet = some bs →
      (extract_wacc_components company file now ticker rf mrp beta).fst = .ok w →
      w.tax_rate = effective_tax_rate istmt.income_tax_expense istmt.income_before_tax) ∧
    (∀ filing fin istmt row, filing.financials = some fin →
      fin.income_statement = some istmt → process_filing filing = some row →
      row.nopat = (istmt.operating_income.getD 0) *
        (1 - effective_tax_rate istmt.income_tax_expense istmt.income_before_tax)) := by
  refine ⟨?_, ?_, ?_, ?_, ?_, ?_, ?_, ?_⟩
  · intro hte hpt hle
    simp only [effective_tax_rate, if_pos (And.intro hte hpt)]
    rw [if_neg]
    push_neg
    exact ⟨abs_nonneg _, hle⟩
  · rfl
  · cases o <;> rfl
  · cases o with
    | none => rfl
    | some pt2 => simp [effective_tax_rate]
  · simp [effective_tax_rate]
  · intro hgt
    have hte : te ≠ 0 := by
      intro h0
      rw [h0] at hgt
      norm_num at hgt
    have hpt : pt ≠ 0 := by
      intro h0
      rw [h0] at hgt
      norm_num at hgt
    simp only [effective_tax_rate, if_pos (And.intro hte hpt)]
    rw [if_pos (Or.inr hgt)]
  · intro company file now ticker rf mrp beta co f fin istmt bs w hmiss hco hf hfin
      hstmt hbs hok
    subst hco
    rw [extract_wacc_fst_of_miss hmiss] at hok
    unfold wacc_from_filings at hok
    simp only [hf, hfin, hstmt, hbs] at hok
    split at hok
    · exact absurd hok (by simp)
    · split at hok
      · exact absurd hok (by simp)
      · split at hok
        · exact absurd hok (by simp)
        · rw [Except.ok.injEq] at hok
          subst hok
          rfl
  · intro filing fin istmt row hfi hstmt hpf
    unfold process_filing at hpf
    simp only [hfi, hstmt] at hpf
    split at hpf
    · rename_i i2 b2 hi2 hb2
      rw [Option.some_inj] at hi2
      subst hi2
      split at hpf
      · exact absurd hpf (by simp)
      · rename_i oi heq
        split at hpf
        · exact absurd hpf (by simp)
        · split at hpf
          · exact absurd hpf (by simp)
          · rw [Option.some_inj] at hpf
            subst hpf
            rw [heq]
            rfl
    · exact absurd hpf (by simp)


/-- Claim C3 counterexample: for the concrete company whose latest filing has
a tax expense of exactly 0 against a pre-tax income of 100, the tax rate used
by WACC extraction is the 0.21 default, although the claimed rate
`|0 / 100| = 0` lies in `[0, 0.5]` with a present, non-zero denominator. -/
theorem claim3_counterexample :
    okTaxRate (extract_wacc_components (some zeroTaxCompany) CacheFile.missing 0
      "TICK" none none none).fst = some (21/100) ∧ |(0 : ℚ) / 100| ≠ 21/100 := by
  constructor
  · norm_num [extract_wacc_components, wacc_from_filings, load_from_cache,
      zeroTaxCompany, emptyIncome, emptyBalance, effective_tax_rate, okTaxRate,
      DEFAULT_RISK_FREE_RATE, DEFAULT_MARKET_RISK_PREMIUM, DEFAULT_BETA, Option.bind]
  · norm_num

/-- Claim C3 witness: the amended characterization instantiated at concrete
figures: a tax expense of 1 against a pre-tax income of 10 gives rate 1/10,
and a zero tax expense gives the 0.21 default. -/
theorem claim3_witness :
    effective_tax_rate (some 1) (some 10) = |(1 : ℚ) / 10| ∧
    effective_tax_rate (some 0) (some 100) = 21/100 := by
  constructor
  · exact (claim3_tax_rate 1 10 none).1 (by norm_num) (by norm_num) (by
      rw [abs_of_nonneg (by norm_num)]
      norm_num)
  · exact (claim3_tax_rate 0 0 (some 100)).2.2.2.1

/-- Claim C4 (amended): on a cache miss and with a non-negative effective
risk-free rate (override or default), a successful sensitivity calculation
produces both extra scenarios and they satisfy
pessimistic >= base >= optimistic; no assumption on beta or the market risk
premium is needed, since both scenarios perturb only the risk-free summand. -/
theorem claim4_sensitivity_ordering (company : Option CompanyData) (file : CacheFile)
    (now : Int) (ticker : String) (overrides : Overrides) (res : WACCResult)
    (hmiss : (load_from_cache file now).bind CacheRecord.wacc_components = none)
    (hrf : 0 ≤ overrides.risk_free_rate.getD DEFAULT_RISK_FREE_RATE)
    (h : (calculate_wacc company file now ticker overrides true).fst = .ok res) :
    res.scenarios.pessimistic.isSome = true ∧
    res.scenarios.optimistic.isSome = true ∧
    res.scenarios.optimistic.getD res.scenarios.base ≤ res.scenarios.base ∧
    res.scenarios.base ≤ res.scenarios.pessimistic.getD res.scenarios.base := by
  rcases hE : extract_wacc_components company file now ticker overrides.risk_free_rate
    overrides.market_risk_premium overrides.beta with ⟨e1, ef⟩
  simp only [calculate_wacc, hE] at h
  cases e1 with
  | error e => simp at h
  | ok w =>
    have hw : wacc_from_filings company ticker overrides.risk_free_rate
        overrides.market_risk_premium overrides.beta = .ok w := by
      rw [← extract_wacc_fst_of_miss hmiss, hE]
    obtain ⟨hE1, hrf1, _, _, hcoe⟩ := wacc_from_filings_ok hw
    rw [Except.ok.injEq] at h
    subst h
    have hrfnn : 0 ≤ w.risk_free_rate := by
      rw [hrf1]
      exact hrf
    have hmax : max 0 (w.risk_free_rate - 1/100) ≤ w.risk_free_rate :=
      max_le hrfnn (by linarith)
    refine ⟨rfl, rfl, ?_, ?_⟩
    · have key : w.equity_ratio * (max 0 (w.risk_free_rate - 1/100) +
          w.beta * w.market_risk_premium) ≤ w.equity_ratio * w.cost_of_equity := by
        rw [hcoe]
        exact mul_le_mul_of_nonneg_left (by linarith) (le_of_lt hE1)
      simp only [if_true, Option.getD_some]
      linarith [key]
    · have key : w.equity_ratio * w.cost_of_equity ≤
          w.equity_ratio * (w.risk_free_rate + 1/100 + w.beta * w.market_risk_premium) := by
        rw [hcoe]
        exact mul_le_mul_of_nonneg_left (by linarith) (le_of_lt hE1)
      simp only [if_true, Option.getD_some]
      linarith [key]


/-- Claim C4 counterexample: with the admissible risk-free override -0.02
(and the default beta 1 >= 0 and market risk premium 0.055 >= 0), the
optimistic scenario exceeds the base scenario, because the optimistic
risk-free rate is floored at 0 while the base uses the negative rate. -/
theorem claim4_counterexample :
    okScenarios (calculate_wacc (some equityCompany) CacheFile.missing 0 "TICK"
        negRfOverrides true).fst =
      some { base := 35/1000, pessimistic := some (45/1000),
             optimistic := some (55/1000) } ∧
    ¬ ((55 : ℚ)/1000 ≤ 35/1000) ∧
    0 ≤ DEFAULT_BETA ∧ 0 ≤ DEFAULT_MARKET_RISK_PREMIUM := by
  refine ⟨?_, by norm_num, by norm_num [DEFAULT_BETA], by norm_num [DEFAULT_MARKET_RISK_PREMIUM]⟩
  norm_num [calculate_wacc, extract_wacc_components, wacc_from_filings, load_from_cache,
    equityCompany, emptyIncome, emptyBalance, effective_tax_rate, negRfOverrides,
    okScenarios, DEFAULT_RISK_FREE_RATE, DEFAULT_MARKET_RISK_PREMIUM, DEFAULT_BETA,
    Option.bind]

/-- Claim C4 witness: the amended ordering instantiated at the concrete
equity-only company with default overrides. -/
theorem claim4_witness :
    (calculate_wacc (some equityCompany) CacheFile.missing 0 "TICK" noOverrides
      true).fst = .ok c4res ∧
    c4res.scenarios.optimistic.getD c4res.scenarios.base ≤ c4res.scenarios.base ∧
    c4res.scenarios.base ≤ c4res.scenarios.pessimistic.getD c4res.scenarios.base := by
  have hrun : (calculate_wacc (some equityCompany) CacheFile.missing 0 "TICK"
      noOverrides true).fst = .ok c4res := by
    norm_num [calculate_wacc, extract_wacc_components, wacc_from_filings, load_from_cache,
      equityCompany, emptyIncome, emptyBalance, effective_tax_rate, noOverrides, c4res,
      DEFAULT_RISK_FREE_RATE, DEFAULT_MARKET_RISK_PREMIUM, DEFAULT_BETA, Option.bind]
  have h := claim4_sensitivity_ordering (some equityCompany) CacheFile.missing 0 "TICK"
    noOverrides c4res rfl (by norm_num [noOverrides, DEFAULT_RISK_FREE_RATE]) hrun
  exact ⟨hrun, h.2.2.1, h.2.2.2⟩

theorem trend_code_eq_spec (sh : List ℚ) :
    (if 3 ≤ sh.length then
      if ((sh.drop (sh.length - 3)).getLast?.getD 0 -
          (sh.drop (sh.length - 3)).head?.getD 0) / 2 > 2/100 then "improving"
      else if ((sh.drop (sh.length - 3)).getLast?.getD 0 -
          (sh.drop (sh.length - 3)).head?.getD 0) / 2 < -(2/100) then "deteriorating"
      else "stable"
    else "stable") = spec_trend sh := by
  unfold spec_trend
  by_cases h3 : 3 ≤ sh.length
  · have hlen : (sh.drop (sh.length - 3)).length = 3 := by
      rw [List.length_drop]
      omega
    rw [List.getLast?_eq_getElem?, hlen, List.head?_eq_getElem?,
      if_pos h3, if_neg (not_lt.mpr h3)]
  · rw [if_neg h3, if_pos (not_le.mp h3)]

/-- Claim C5: every successful spread result classifies its trend from the 3
most recent spread values by the slope rule with strict 2% thresholds, and
its durability by evaluating the strong condition before the weak condition;
on the concrete inputs, ROIC history [0.20, 0.15, 0.10] against a flat 0.08
WACC is deteriorating and weak, while [0.15, 0.18, 0.22] is improving and
strong. -/
theorem claim5_trend_durability :
    (∀ company file now ticker years res,
      (calculate_spread company file now ticker years).fst = .ok res →
      res.spread_trend = spec_trend res.spread_history ∧
      res.durability_assessment = spec_durability res.current_spread res.spread_trend) ∧
    okTrend (calculate_spread (some threeYearCompanyA) (CacheFile.valid cacheW08)
      0 "TICK" 5).fst = some ("deteriorating", "weak") ∧
    okTrend (calculate_spread (some threeYearCompanyB) (CacheFile.valid cacheW08)
      0 "TICK" 5).fst = some ("improving", "strong") := by
  refine ⟨?_, ?_, ?_⟩
  · intro company file now ticker years res h
    rcases hR : extract_roic_history company file now ticker years with ⟨r1, f1⟩
    simp only [calculate_spread, hR] at h
    cases r1 with
    | error e => simp at h
    | ok d =>
      dsimp only at h
      rcases hW : calculate_wacc company f1 now ticker noOverrides true with ⟨w1, f2⟩
      rw [hW] at h
      cases w1 with
      | error e => simp at h
      | ok wres =>
        dsimp only at h
        rw [Except.ok.injEq] at h
        subst h
        exact ⟨trend_code_eq_spec _, rfl⟩
  · norm_num [calculate_spread, extract_roic_history, roic_from_filings, calculate_wacc,
      extract_wacc_components, wacc_from_filings, load_from_cache, save_to_cache,
      threeYearCompanyA, assets100Filing, emptyIncome, emptyBalance, process_filing,
      effective_tax_rate, List.mergeSort, rowLE, cacheW08, w08, noOverrides, okTrend,
      Option.bind, List.filterMap, emptyRecord, Int.zero_fdiv]
  · norm_num [calculate_spread, extract_roic_history, roic_from_filings, calculate_wacc,
      extract_wacc_components, wacc_from_filings, load_from_cache, save_to_cache,
      threeYearCompanyB, assets100Filing, emptyIncome, emptyBalance, process_filing,
      effective_tax_rate, List.mergeSort, rowLE, cacheW08, w08, noOverrides, okTrend,
      Option.bind, List.filterMap, emptyRecord, Int.zero_fdiv]


/-- Claim C5 witness: the classification equations instantiated at the
concrete deteriorating scenario, whose full spread result is `spreadResA`. -/
theorem claim5_witness :
    (calculate_spread (some threeYearCompanyA) (CacheFile.valid cacheW08) 0 "TICK"
      5).fst = .ok spreadResA ∧
    spreadResA.spread_trend = spec_trend spreadResA.spread_history ∧
    spreadResA.durability_assessment =
      spec_durability spreadResA.current_spread spreadResA.spread_trend := by
  have hrun : (calculate_spread (some threeYearCompanyA) (CacheFile.valid cacheW08)
      0 "TICK" 5).fst = .ok spreadResA := by
    norm_num [calculate_spread, extract_roic_history, roic_from_filings, calculate_wacc,
      extract_wacc_components, wacc_from_filings, load_from_cache, save_to_cache,
      threeYearCompanyA, assets100Filing, emptyIncome, emptyBalance, process_filing,
      effective_tax_rate, List.mergeSort, rowLE, cacheW08, w08, noOverrides,
      Option.bind, List.filterMap, emptyRecord, Int.zero_fdiv, spreadResA, roicA,
      waccResW08]
  have h := claim5_trend_durability.1 (some threeYearCompanyA) (CacheFile.valid cacheW08)
    0 "TICK" 5 spreadResA hrun
  exact ⟨hrun, h.1, h.2⟩

theorem extract_roic_snd_shape {company : Option CompanyData} {file : CacheFile}
    {now : Int} {ticker : String} {years : Nat} {r : CacheRecord}
    (h : load_from_cache file now = some r) :
    (extract_roic_history company file now ticker years).snd = file ∨
    ∃ v, (extract_roic_history company file now ticker years).snd =
      save_to_cache ticker { r with roic_history := some v } now := by
  simp only [extract_roic_history, h, Option.bind]
  cases hr : r.roic_history with
  | some v => left; simp [hr]
  | none =>
    cases hp : roic_from_filings company ticker years with
    | error e => left; simp [hr, hp]
    | ok result => right; exact ⟨result, by simp [hr, hp]⟩

theorem extract_wacc_snd_shape {company : Option CompanyData} {file : CacheFile}
    {now : Int} {ticker : String} {rf mrp beta : Option ℚ} {r : CacheRecord}
    (h : load_from_cache file now = some r) :
    (extract_wacc_components company file now ticker rf mrp beta).snd = file ∨
    ∃ v, (extract_wacc_components company file now ticker rf mrp beta).snd =
      save_to_cache ticker { r with wacc_components := some v } now := by
  simp only [extract_wacc_components, h, Option.bind]
  cases hr : r.wacc_components with
  | some v => left; simp [hr]
  | none =>
    cases hp : wacc_from_filings company ticker rf mrp beta with
    | error e => left; simp [hr, hp]
    | ok result => right; exact ⟨result, by simp [hr, hp]⟩

/-- Claim C7 (amended): when the existing persisted record is readable and
fresh, each of the three writers preserves the sibling sub-result keys: the
ROIC writer leaves `wacc_components` and `spread_result` unchanged, the WACC
writer leaves `roic_history` and `spread_result` unchanged, and a successful
`calculate_spread` ends with a persisted record carrying exactly its returned
ROIC history, its returned WACC components and its returned spread result
(each inner write having preserved the siblings present at that point). -/
theorem claim7_merge_on_write (company : Option CompanyData) (file : CacheFile)
    (now : Int) (ticker : String) (years : Nat) (rf mrp beta : Option ℚ)
    (r : CacheRecord) (h : load_from_cache file now = some r) :
    (fileWaccKey (extract_roic_history company file now ticker years).snd =
        r.wacc_components ∧
      fileSpreadKey (extract_roic_history company file now ticker years).snd =
        r.spread_result) ∧
    (fileRoicKey (extract_wacc_components company file now ticker rf mrp beta).snd =
        r.roic_history ∧
      fileSpreadKey (extract_wacc_components company file now ticker rf mrp beta).snd =
        r.spread_result) ∧
    (∀ res, (calculate_spread company file now ticker years).fst = .ok res →
      fileRoicKey (calculate_spread company file now ticker years).snd =
        some res.roic_data ∧
      fileWaccKey (calculate_spread company file now ticker years).snd =
        some res.wacc_result.components_breakdown ∧
      fileSpreadKey (calculate_spread company file now ticker years).snd = some res) := by
  have hfile := load_some_valid h
  refine ⟨?_, ?_, ?_⟩
  · rcases extract_roic_snd_shape h with hs | ⟨v, hs⟩
    · rw [hs, hfile]
      exact ⟨rfl, rfl⟩
    · rw [hs]
      exact ⟨rfl, rfl⟩
  · rcases extract_wacc_snd_shape h with hs | ⟨v, hs⟩
    · rw [hs, hfile]
      exact ⟨rfl, rfl⟩
    · rw [hs]
      exact ⟨rfl, rfl⟩
  · intro res hres
    rcases hR : extract_roic_history company file now ticker years with ⟨r1, f1⟩
    simp only [calculate_spread, hR] at hres ⊢
    cases r1 with
    | error e => simp at hres
    | ok d =>
      dsimp only at hres ⊢
      obtain ⟨r1rec, hload1, hroic1, _, _⟩ := extract_roic_post h hR
      rcases hW : calculate_wacc company f1 now ticker noOverrides true with ⟨w1, f2⟩
      rw [hW] at hres
      cases w1 with
      | error e => simp at hres
      | ok wres =>
        dsimp only at hres ⊢
        obtain ⟨r2, hload2, hwacc2, hroic2, _⟩ :=
          extract_wacc_post hload1 (calculate_wacc_ok hW)
        rw [Except.ok.injEq] at hres
        subst hres
        rw [hload2]
        simp only [Option.getD_some, save_to_cache, fileRoicKey, fileWaccKey,
          fileSpreadKey]
        refine ⟨?_, ?_, trivial⟩
        · rw [hroic2, hroic1]
        · rw [hwacc2]


/-- Claim C7 counterexample: the existing persisted record is stale (91 days
old) and holds `wacc_components`; a successful ROIC write then clobbers that
sibling key, because the stale record loads as a cache miss and the new
sub-result is merged into an empty record instead. -/
theorem claim7_counterexample :
    staleWaccRecord.wacc_components = some w08 ∧
    fileWaccKey (extract_roic_history (some threeYearCompanyA)
      (CacheFile.valid staleWaccRecord) 0 "TICK" 5).snd = none := by
  refine ⟨rfl, ?_⟩
  norm_num [extract_roic_history, roic_from_filings, load_from_cache, save_to_cache,
    threeYearCompanyA, assets100Filing, emptyIncome, emptyBalance, process_filing,
    effective_tax_rate, List.mergeSort, rowLE, staleWaccRecord, Option.bind,
    List.filterMap, emptyRecord, fileWaccKey, secondsPerDay,
    (by decide : Int.fdiv 7862400 86400 = 91)]

/-- Claim C7 witness: with a fresh readable record holding `wacc_components`,
the ROIC writer leaves that sibling key unchanged. -/
theorem claim7_witness :
    load_from_cache (CacheFile.valid cacheW08) 0 = some cacheW08 ∧
    fileWaccKey (extract_roic_history (some threeYearCompanyA)
      (CacheFile.valid cacheW08) 0 "TICK" 5).snd = cacheW08.wacc_components := by
  have hload : load_from_cache (CacheFile.valid cacheW08) 0 = some cacheW08 := by
    norm_num [load_from_cache, cacheW08, secondsPerDay, Int.zero_fdiv]
  exact ⟨hload, (claim7_merge_on_write (some threeYearCompanyA)
    (CacheFile.valid cacheW08) 0 "TICK" 5 none none none cacheW08 hload).1.1⟩

end FinancialAnalyzer

